import Mathlib

/-!
Verification development for the AgentOS trigger-jobs layer.

The embedding models, from the TypeScript source:
  - the JavaScript truthiness semantics used by the Dispatch Bridge
    validation in src/trigger-jobs/src/api.ts;
  - the three /trigger/* route handlers of api.ts, instrumented with a
    Boolean recording whether the task trigger operation was invoked;
  - the GET /runs/:runId stub handler of api.ts;
  - the task definitions of src/trigger-jobs/src/trigger/ (retry
    configurations, the product-hunt-launch run trace, the
    content-generation run pipeline, and the Slack sink calls);
  - the /api/trigger/* Slack endpoints of the second API server
    (appended in content-generation.ts), which mutate the process-wide
    environment variable SLACK_BOT_TOKEN.
-/

namespace AgentOS

/-- A JavaScript value as seen by the Dispatch Bridge validation code.
Only the distinctions relevant to the `!payload.field` truthiness checks
are modelled: `undefined`, `null`, booleans, numbers (integers; `NaN` is
not modelled), strings, and a single constructor for all objects/arrays
(which are always truthy in JavaScript). -/
inductive JsValue where
  | undefined
  | null
  | bool (b : Bool)
  | num (n : Int)
  | str (s : String)
  | obj
deriving DecidableEq

/-- JavaScript truthiness: `undefined`, `null`, `false`, `0` and the empty
string are falsy; every other modelled value is truthy. -/
def JsValue.truthy : JsValue → Bool
  | .undefined => false
  | .null => false
  | .bool b => b
  | .num n => n != 0
  | .str s => s != ""
  | .obj => true

/-- A JSON request body: an association list of field names to values,
as produced by express.json parsing the POST body. -/
def Payload := List (String × JsValue)

/-- Property access `payload.field`: the first binding of the field if
present, `undefined` otherwise. -/
def payloadGet (p : Payload) (field : String) : JsValue :=
  match p.find? (fun kv => kv.1 == field) with
  | some kv => kv.2
  | none => .undefined

/-- The JSON body of a Dispatch Bridge response (api.ts):
a 400 validation error, a 200 trigger success envelope, or a 500
dispatch error envelope. -/
inductive ResponseBody where
  | validationError (success : Bool) (error : String)
  | triggerSuccess (success : Bool) (task_id : String) (run_id : String)
      (status : String) (triggered_at : String)
  | dispatchError (success : Bool) (error : String) (task_id : String)
deriving DecidableEq

/-- Outcome of one Dispatch Bridge request: the HTTP status, the JSON
body, and whether the task trigger operation was invoked while handling
the request (instrumentation used to state the never-calls-trigger
properties). -/
structure HandlerOutcome where
  httpStatus : Nat
  body : ResponseBody
  triggerCalled : Bool
deriving DecidableEq

/-- POST /trigger/product-hunt-launch (api.ts lines 28-59).
`triggerResult` is the outcome of `productHuntLaunchTask.trigger(payload)`:
`.ok id` when the trigger call returns a handle with that id, `.error msg`
when it throws. `now` is the ISO timestamp taken at response time. -/
def productHuntLaunchHandler (payload : Payload)
    (triggerResult : Except String String) (now : String) : HandlerOutcome :=
  if !(payloadGet payload "productName").truthy
      || !(payloadGet payload "launchDate").truthy
      || !(payloadGet payload "description").truthy
      || !(payloadGet payload "website").truthy then
    { httpStatus := 400
      body := .validationError false
        "Missing required fields: productName, launchDate, description, website"
      triggerCalled := false }
  else
    match triggerResult with
    | .ok handleId =>
      { httpStatus := 200
        body := .triggerSuccess true "product-hunt-launch" handleId "triggered" now
        triggerCalled := true }
    | .error msg =>
      { httpStatus := 500
        body := .dispatchError false msg "product-hunt-launch"
        triggerCalled := true }

/-- POST /trigger/content-generation (api.ts lines 62-93). -/
def contentGenerationHandler (payload : Payload)
    (triggerResult : Except String String) (now : String) : HandlerOutcome :=
  if !(payloadGet payload "contentType").truthy
      || !(payloadGet payload "topic").truthy
      || !(payloadGet payload "targetAudience").truthy then
    { httpStatus := 400
      body := .validationError false
        "Missing required fields: contentType, topic, targetAudience"
      triggerCalled := false }
  else
    match triggerResult with
    | .ok handleId =>
      { httpStatus := 200
        body := .triggerSuccess true "content-generation" handleId "triggered" now
        triggerCalled := true }
    | .error msg =>
      { httpStatus := 500
        body := .dispatchError false msg "content-generation"
        triggerCalled := true }

/-- POST /trigger/analytics-tracking (api.ts lines 96-127). -/
def analyticsTrackingHandler (payload : Payload)
    (triggerResult : Except String String) (now : String) : HandlerOutcome :=
  if !(payloadGet payload "eventType").truthy
      || !(payloadGet payload "userId").truthy
      || !(payloadGet payload "properties").truthy then
    { httpStatus := 400
      body := .validationError false
        "Missing required fields: eventType, userId, properties"
      triggerCalled := false }
  else
    match triggerResult with
    | .ok handleId =>
      { httpStatus := 200
        body := .triggerSuccess true "analytics-tracking" handleId "triggered" now
        triggerCalled := true }
    | .error msg =>
      { httpStatus := 500
        body := .dispatchError false msg "analytics-tracking"
        triggerCalled := true }

/-- Required fields of POST /trigger/product-hunt-launch. -/
def phRequiredFields : List String :=
  ["productName", "launchDate", "description", "website"]

/-- Required fields of POST /trigger/content-generation. -/
def cgRequiredFields : List String :=
  ["contentType", "topic", "targetAudience"]

/-- Required fields of POST /trigger/analytics-tracking. -/
def atRequiredFields : List String :=
  ["eventType", "userId", "properties"]

/-- Body of the GET /runs/:runId stub response (api.ts lines 130-149). -/
structure RunStatusBody where
  id : String
  status : String
  createdAt : String
deriving DecidableEq

/-- GET /runs/:runId (api.ts lines 130-149). The handler is a stub: it
answers from the request alone. The `substrateRunState` parameter is a
ghost argument standing for the true state of the run in the execution
substrate; the source handler has no access to it and the definition
ignores it, which is exactly what the independence theorem states. -/
def getRunStatusHandler (runId : String) (now : String)
    (substrateRunState : String) : Nat × RunStatusBody :=
  let _ := substrateRunState
  (200, { id := runId, status := "running", createdAt := now })

/-- A declared task retry configuration (the `retry` objects of the
three task definitions and trigger.config.ts). -/
structure RetryConfig where
  maxAttempts : Nat
  minTimeoutInMs : Nat
  maxTimeoutInMs : Nat
  factor : Nat
deriving DecidableEq

/-- Retry configuration of productHuntLaunchTask
(product-hunt-launch.ts lines 14-19). -/
def productHuntLaunchRetry : RetryConfig :=
  { maxAttempts := 3, minTimeoutInMs := 1000, maxTimeoutInMs := 10000, factor := 2 }

/-- Retry configuration of contentGenerationTask
(content-generation.ts lines 24-29). -/
def contentGenerationRetry : RetryConfig :=
  { maxAttempts := 3, minTimeoutInMs := 2000, maxTimeoutInMs := 15000, factor := 2 }

/-- Retry configuration of analyticsTrackingTask
(analytics-tracking.ts lines 13-18). -/
def analyticsTrackingRetry : RetryConfig :=
  { maxAttempts := 3, minTimeoutInMs := 1000, maxTimeoutInMs := 10000, factor := 2 }

/-- Project-default retry configuration (trigger.config.ts lines 6-15). -/
def projectDefaultRetry : RetryConfig :=
  { maxAttempts := 3, minTimeoutInMs := 1000, maxTimeoutInMs := 10000, factor := 2 }

/-- The retry values the spec table assigns to product-hunt-launch,
written from the spec text, to be compared with the source definition. -/
def specProductHuntLaunchRetry : RetryConfig :=
  { maxAttempts := 3, minTimeoutInMs := 1000, maxTimeoutInMs := 10000, factor := 2 }

/-- The retry values the spec table assigns to content-generation,
written from the spec text, to be compared with the source definition. -/
def specContentGenerationRetry : RetryConfig :=
  { maxAttempts := 3, minTimeoutInMs := 2000, maxTimeoutInMs := 15000, factor := 2 }

/-- The retry values the spec table assigns to analytics-tracking,
written from the spec text, to be compared with the source definition. -/
def specAnalyticsTrackingRetry : RetryConfig :=
  { maxAttempts := 3, minTimeoutInMs := 1000, maxTimeoutInMs := 10000, factor := 2 }

/-- Modelled from the spec: the backoff delay the execution substrate
(the managed Trigger.dev retry engine, whose code is not part of this
repository) waits after attempt `n` of a task with retry configuration
`c`, namely `min(minTimeoutMs * factor^(n-1), maxTimeoutMs)`
(spec section 4.1, without the optional randomization). -/
def backoffDelayMs (c : RetryConfig) (n : Nat) : Nat :=
  min (c.minTimeoutInMs * c.factor ^ (n - 1)) c.maxTimeoutInMs

/-- Payload of productHuntLaunchTask (product-hunt-launch.ts lines 3-10). -/
structure ProductHuntLaunchPayload where
  productName : String
  launchDate : String
  description : String
  website : String
  twitterHandle : Option String
  slackWebhook : Option String
deriving DecidableEq

/-- Result of an HTTP fetch that returned (fetch response objects carry
an `ok` flag, true exactly for 2xx statuses, and a `statusText`). -/
structure FetchResponse where
  ok : Bool
  statusText : String
deriving DecidableEq

/-- Slack message text of the product-hunt-launch notification
(product-hunt-launch.ts line 70). -/
def phSlackText (p : ProductHuntLaunchPayload) : String :=
  "🚀 " ++ p.productName ++ " is now live on Product Hunt!"

/-- sendSlackNotification (product-hunt-launch.ts lines 60-92).
`fetchResult` is the outcome of the fetch to the Slack webhook:
`.error e` when fetch itself throws, `.ok r` when a response arrived.
A non-ok response raises an error; the catch block logs and rethrows, so
every failure propagates to the caller (the run function). -/
def sendSlackNotification (p : ProductHuntLaunchPayload)
    (fetchResult : Except String FetchResponse) : Except String Unit :=
  let _requestText := phSlackText p
  match fetchResult with
  | .error e => .error e
  | .ok response =>
    if !response.ok then
      .error ("Slack notification failed: " ++ response.statusText)
    else
      .ok ()

/-- An observable step of the product-hunt-launch run, in declaration
order: the suspend points (wait.until on an absolute time in ms, wait.for
on a duration in hours), the Slack webhook POST, and the logged would-be
tweets. Logger-only calls are omitted. -/
inductive RunEvent where
  | waitUntilMs (t : Nat)
  | waitForHours (h : Nat)
  | slackWebhookPost (url : String) (text : String)
  | tweetLogged (content : String)
deriving DecidableEq

/-- The three tweet texts of scheduleTwitterPosts
(product-hunt-launch.ts lines 97-101). -/
def phTweets (p : ProductHuntLaunchPayload) : List String :=
  [ "🚀 We\x27re live on Product Hunt! " ++ p.productName ++ " - "
      ++ p.description ++ " Check it out: " ++ p.website ++ " #ProductHunt #Launch",
    "🎉 Thank you to everyone supporting " ++ p.productName
      ++ " on Product Hunt today! Your votes mean the world to us 🙏",
    "⏰ Last chance to support " ++ p.productName
      ++ " on Product Hunt! Every vote counts 🗳️ " ++ p.website ]

/-- Trace of scheduleTwitterPosts (product-hunt-launch.ts lines 94-115):
the loop over tweetTimes = [0, 4, 8] hours after `nowMs`, unrolled; each
iteration suspends until the tweet time, then logs the tweet. -/
def scheduleTwitterPostsTrace (nowMs : Nat) (p : ProductHuntLaunchPayload) :
    List RunEvent :=
  [ .waitUntilMs (nowMs + 0 * 60 * 60 * 1000),
    .tweetLogged ((phTweets p).getD 0 ""),
    .waitUntilMs (nowMs + 4 * 60 * 60 * 1000),
    .tweetLogged ((phTweets p).getD 1 ""),
    .waitUntilMs (nowMs + 8 * 60 * 60 * 1000),
    .tweetLogged ((phTweets p).getD 2 "") ]

/-- Trace of monitorLaunchDay (product-hunt-launch.ts lines 117-139):
the loop for hour = 0, 2, ..., 10 suspends two hours per iteration. -/
def monitorLaunchDayTrace : List RunEvent :=
  [ .waitForHours 2, .waitForHours 2, .waitForHours 2,
    .waitForHours 2, .waitForHours 2, .waitForHours 2 ]

/-- Trace of the optional Slack step of the run
(product-hunt-launch.ts lines 35-37 and 60-92). -/
def phSlackNotificationTrace (p : ProductHuntLaunchPayload) : List RunEvent :=
  match p.slackWebhook with
  | some url => [.slackWebhookPost url (phSlackText p)]
  | none => []

/-- Trace of the productHuntLaunchTask run function
(product-hunt-launch.ts lines 20-57): first the suspend until the parsed
launch date, then the optional Slack notification, then the optional
Twitter scheduling, then launch-day monitoring. `parseDateMs` models
JavaScript date parsing of the payload string to epoch ms; `nowMs` is the
clock value when the Twitter scheduling starts. -/
def productHuntLaunchRunTrace (parseDateMs : String → Nat) (nowMs : Nat)
    (p : ProductHuntLaunchPayload) : List RunEvent :=
  .waitUntilMs (parseDateMs p.launchDate) ::
    (phSlackNotificationTrace p
      ++ (match p.twitterHandle with
          | some _ => scheduleTwitterPostsTrace nowMs p
          | none => [])
      ++ monitorLaunchDayTrace)

/-- Notion integration settings (content-generation.ts lines 11-14). -/
structure NotionIntegration where
  databaseId : String
  apiKey : String
deriving DecidableEq

/-- Slack integration settings (content-generation.ts lines 15-18). -/
structure SlackIntegration where
  webhook : String
  channel : String
deriving DecidableEq

/-- The integrations object of a content-generation payload
(content-generation.ts lines 10-19). -/
structure Integrations where
  notion : Option NotionIntegration
  slack : Option SlackIntegration
deriving DecidableEq

/-- Payload of contentGenerationTask (content-generation.ts lines 3-20).
The TypeScript type annotates contentType and tone with union types, but
TypeScript types are erased at run time and the HTTP bridge forwards the
raw JSON body, so any string can reach the run function; the fields are
therefore modelled as String. -/
structure ContentGenerationPayload where
  contentType : String
  topic : String
  targetAudience : String
  tone : String
  platforms : Option (List String)
  scheduledDate : Option String
  integrations : Integrations
deriving DecidableEq

/-- A value of the contentTemplates map of generateContent
(content-generation.ts lines 76-115), one shape per known content type. -/
inductive GeneratedContent where
  | blogPost (title content : String) (wordCount : Nat) (readingTime : String)
  | socialMedia (posts hashtags platforms : List String)
  | emailCampaign (subject preheader content cta : String)
  | productDescription (title shortDescription longDescription : String)
      (features benefits : List String)
deriving DecidableEq

/-- JavaScript `topic.replace(/\s+/g, "")`: the topic with all whitespace
removed, used for hashtags. -/
def stripSpaces (s : String) : String :=
  String.mk (s.toList.filter (fun c => !c.isWhitespace))

/-- generateContent (content-generation.ts lines 69-125): the lookup
`contentTemplates[payload.contentType]`. For the four known content types
it yields the corresponding template; for any other string the indexing
yields `undefined` (modelled as `none`) without raising. The simulated
5-second wait has no observable effect on the result and is omitted. -/
def generateContent (p : ContentGenerationPayload) : Option GeneratedContent :=
  if p.contentType == "blog-post" then
    some (.blogPost
      ("The Ultimate Guide to " ++ p.topic)
      ("# The Ultimate Guide to " ++ p.topic
        ++ "\n\nThis comprehensive guide covers everything you need to know about "
        ++ p.topic ++ " for " ++ p.targetAudience
        ++ ".\n\n## Introduction\n\nIn today\x27s fast-paced world, understanding "
        ++ p.topic ++ " is crucial for " ++ p.targetAudience
        ++ ".\n\n## Key Points\n\n1. Understanding the basics\n2. Advanced techniques\n3. Best practices\n4. Common pitfalls to avoid\n\n## Conclusion\n\nBy following these guidelines, you\x27ll be well-equipped to master "
        ++ p.topic ++ ".")
      250 "2 min")
  else if p.contentType == "social-media" then
    some (.socialMedia
      [ "🚀 Excited to share insights about " ++ p.topic ++ "! Perfect for "
          ++ p.targetAudience ++ " looking to level up. #" ++ stripSpaces p.topic,
        "💡 Pro tip: When working with " ++ p.topic
          ++ ", remember that consistency is key. What\x27s your experience? Share below! 👇",
        "🎯 Quick question for " ++ p.targetAudience
          ++ ": What\x27s your biggest challenge with " ++ p.topic ++ "? Let\x27s discuss! 💬" ]
      [ "#" ++ stripSpaces p.topic, "#productivity", "#tips" ]
      (p.platforms.getD ["twitter", "linkedin"]))
  else if p.contentType == "email-campaign" then
    some (.emailCampaign
      ("Master " ++ p.topic ++ ": Essential Tips for " ++ p.targetAudience)
      ("Everything you need to know about " ++ p.topic)
      ("Hi there!\n\nWe\x27ve put together some essential insights about "
        ++ p.topic ++ " specifically for " ++ p.targetAudience
        ++ ".\n\nKey takeaways:\n• Understanding the fundamentals\n• Practical implementation strategies\n• Common mistakes to avoid\n\nReady to dive deeper? Let\x27s get started!\n\nBest regards,\nThe Team")
      "Learn More")
  else if p.contentType == "product-description" then
    some (.productDescription
      (p.topic ++ " Solution")
      ("The perfect " ++ p.topic ++ " solution for " ++ p.targetAudience)
      ("Our comprehensive " ++ p.topic
        ++ " solution is designed specifically for " ++ p.targetAudience
        ++ ". With advanced features and intuitive design, it\x27s the perfect tool to streamline your workflow and boost productivity.")
      [ "Easy to use interface", "Advanced automation", "Real-time analytics", "24/7 support" ]
      [ "Save time and effort", "Increase productivity", "Better results", "Peace of mind" ])
  else
    none

/-- The results.notion entry of publishContent
(content-generation.ts lines 139-148). -/
inductive NotionPublishResult where
  | published (pageId url : String)
  | failed (error : String)
deriving DecidableEq

/-- The results.slack entry of publishContent
(content-generation.ts lines 180-184). -/
inductive SlackPublishResult where
  | sent (channel : String)
  | failed (error : String)
deriving DecidableEq

/-- The results object returned by publishContent. -/
structure PublishResults where
  notion : Option NotionPublishResult
  slack : Option SlackPublishResult
deriving DecidableEq

/-- publishContent (content-generation.ts lines 127-189). The Notion
branch is a simulation that always succeeds, producing ids from the
current clock `nowMs`. The Slack branch POSTs to the configured webhook;
`slackFetchResult` is that fetch outcome. Both branches catch their own
errors and record them in the results object instead of rethrowing, so
this function is total: no sink failure escapes it. -/
def publishContent (p : ContentGenerationPayload) (nowMs : Nat)
    (slackFetchResult : Except String FetchResponse) : PublishResults :=
  let notionEntry : Option NotionPublishResult :=
    match p.integrations.notion with
    | some _ =>
      some (.published ("notion-page-" ++ toString nowMs)
        ("https://notion.so/page-" ++ toString nowMs))
    | none => none
  let slackEntry : Option SlackPublishResult :=
    match p.integrations.slack with
    | some slackCfg =>
      match slackFetchResult with
      | .error e => some (.failed e)
      | .ok response =>
        if !response.ok then
          some (.failed ("Slack API error: " ++ response.statusText))
        else
          some (.sent slackCfg.channel)
    | none => none
  { notion := notionEntry, slack := slackEntry }

/-- The summary built by sendCompletionNotifications
(content-generation.ts lines 191-213): the publish-result keys split by
success. -/
structure CompletionSummary where
  publishedTo : List String
  failedPublications : List String
deriving DecidableEq

/-- Whether a notion publish-result entry counts as a success. -/
def notionEntryOk : NotionPublishResult → Bool
  | .published _ _ => true
  | .failed _ => false

/-- Whether a slack publish-result entry counts as a success. -/
def slackEntryOk : SlackPublishResult → Bool
  | .sent _ => true
  | .failed _ => false

/-- sendCompletionNotifications (content-generation.ts lines 191-213):
splits the publish-result keys by success; it performs no external call
and cannot fail. -/
def sendCompletionNotifications (results : PublishResults) : CompletionSummary :=
  let keyed : List (String × Bool) :=
    (match results.notion with
     | some r => [("notion", notionEntryOk r)]
     | none => []) ++
    (match results.slack with
     | some r => [("slack", slackEntryOk r)]
     | none => [])
  { publishedTo := (keyed.filter (fun kv => kv.2)).map (fun kv => kv.1)
    failedPublications := (keyed.filter (fun kv => !kv.2)).map (fun kv => kv.1) }

/-- The object returned by the contentGenerationTask run function
(content-generation.ts lines 58-65). `generatedContent` is an Option
because the template lookup can yield undefined. -/
structure ContentRunResult where
  success : Bool
  contentType : String
  topic : String
  generatedContent : Option GeneratedContent
  publishResults : PublishResults
  completedAt : String
deriving DecidableEq

/-- The contentGenerationTask run function (content-generation.ts lines
30-66): generate content, optionally suspend until the scheduled date,
publish to the configured integrations, send completion notifications,
and return the success object. Every step of this pipeline is total, so
the run is `.ok` for every payload and every Slack fetch outcome; the
Except codomain records that a run fails exactly when a step throws. -/
def contentGenerationRun (p : ContentGenerationPayload) (nowMs : Nat)
    (completedAt : String) (slackFetchResult : Except String FetchResponse) :
    Except String ContentRunResult :=
  let generated := generateContent p
  let results := publishContent p nowMs slackFetchResult
  let _summary := sendCompletionNotifications results
  .ok { success := true
        contentType := p.contentType
        topic := p.topic
        generatedContent := generated
        publishResults := results
        completedAt := completedAt }

/-- The process-wide mutable environment: the SLACK_BOT_TOKEN variable
read by the Slack tasks and reassigned by the /api/trigger/* handlers. -/
structure Env where
  slackBotToken : Option String
deriving DecidableEq

/-- The token a Slack task's WebClient is initialized with
(slack-integration.ts line 14: new WebClient(process.env.SLACK_BOT_TOKEN)). -/
def slackClientToken (env : Env) : Option String :=
  env.slackBotToken

/-- The formatted message of the agent-os-slack-message task
(slack-integration.ts lines 17-19). -/
def formattedSlackMessage (agentName : Option String) (message : String) : String :=
  match agentName with
  | some name => "🤖 *" ++ name ++ "* from Agent OS:\n\n" ++ message
  | none => "🤖 *Agent OS*:\n\n" ++ message

/-- Result fields of a successful chat.postMessage SDK call. -/
structure SlackPostMessageResult where
  ts : String
  channel : String
deriving DecidableEq

/-- Return value of the agent-os-slack-message run function
(slack-integration.ts lines 46-52), without the wall-clock timestamp. -/
structure SlackSendResult where
  success : Bool
  message_ts : String
  channel : String
  agent_name : Option String
deriving DecidableEq

/-- The agent-os-slack-message run function (slack-integration.ts lines
5-59). `postResult` is the outcome of the chat.postMessage SDK call made
with the WebClient token `slackClientToken env`; the catch block logs and
rethrows, so an SDK failure propagates out of the run function. -/
def sendSlackMessageRun (env : Env) (channel message : String)
    (agentName : Option String)
    (postResult : Except String SlackPostMessageResult) :
    Except String SlackSendResult :=
  let _client := slackClientToken env
  let _text := formattedSlackMessage agentName message
  let _ch := channel
  match postResult with
  | .error e => .error e
  | .ok r =>
    .ok { success := true, message_ts := r.ts, channel := r.channel,
          agent_name := agentName }

/-- Request body of POST /api/trigger/send-slack-message
(content-generation.ts appended server, lines 366-393). -/
structure SlackMessageRequest where
  slack_bot_token : String
  channel : Option String
  message : Option String
  user_name : Option String
deriving DecidableEq

/-- Parameters the send-slack-message handler passes to the task trigger. -/
structure SlackTaskParams where
  channel : String
  message : String
  agent_name : String
deriving DecidableEq

/-- POST /api/trigger/send-slack-message handler (appended server, lines
366-393): it assigns the request body token into the process-wide
environment, then triggers the task with defaulted parameters. The
JavaScript defaulting uses `||`, which also replaces empty strings; the
Option model captures the absent-field case, which is the one relevant
here. Returns the updated environment and the trigger parameters. -/
def sendSlackMessageEndpointStep (req : SlackMessageRequest) (env : Env) :
    Env × SlackTaskParams :=
  let _prev := env
  ({ slackBotToken := some req.slack_bot_token },
   { channel := req.channel.getD "general"
     message := req.message.getD
       ("Hello from Agent OS! Message sent by " ++ req.user_name.getD "Agent")
     agent_name := req.user_name.getD "Agent" })

/-- Request body of POST /api/trigger/demo-slack-integration
(appended server, lines 420-452). -/
structure DemoSlackRequest where
  slack_bot_token : String
  demo_channel : Option String
  user_name : Option String
deriving DecidableEq

/-- Parameters the demo handler passes to the task trigger. -/
structure DemoTaskParams where
  demo_channel : String
  user_name : String
deriving DecidableEq

/-- POST /api/trigger/demo-slack-integration handler (appended server,
lines 420-452): assigns the request token into the process-wide
environment, then triggers the demo task with defaulted parameters. -/
def demoSlackEndpointStep (req : DemoSlackRequest) (env : Env) :
    Env × DemoTaskParams :=
  let _prev := env
  ({ slackBotToken := some req.slack_bot_token },
   { demo_channel := req.demo_channel.getD "general"
     user_name := req.user_name.getD "Demo User" })

/-- Whether an Except value is a success. -/
def exceptIsOk {ε α : Type} : Except ε α → Bool
  | .ok _ => true
  | .error _ => false

/-- C1: every POST to a /trigger/* route whose JSON body is missing any of
that route's required fields gets HTTP 400 with the route's full
missing-fields error body and the task trigger is never called; in
particular POST /trigger/content-generation missing topic yields 400 with
the error naming contentType, topic, targetAudience. -/
theorem dispatch_missing_required_fields_rejected :
  (∀ (p : Payload) (t : Except String String) (now f : String),
      f ∈ phRequiredFields → payloadGet p f = .undefined →
      productHuntLaunchHandler p t now =
        { httpStatus := 400
          body := .validationError false
            "Missing required fields: productName, launchDate, description, website"
          triggerCalled := false })
  ∧ (∀ (p : Payload) (t : Except String String) (now f : String),
      f ∈ cgRequiredFields → payloadGet p f = .undefined →
      contentGenerationHandler p t now =
        { httpStatus := 400
          body := .validationError false
            "Missing required fields: contentType, topic, targetAudience"
          triggerCalled := false })
  ∧ (∀ (p : Payload) (t : Except String String) (now f : String),
      f ∈ atRequiredFields → payloadGet p f = .undefined →
      analyticsTrackingHandler p t now =
        { httpStatus := 400
          body := .validationError false
            "Missing required fields: eventType, userId, properties"
          triggerCalled := false })
  ∧ contentGenerationHandler
      [("contentType", .str "blog-post"), ("targetAudience", .str "developers")]
      (.ok "run_1") "2025-01-01T00:00:00Z" =
      { httpStatus := 400
        body := .validationError false
          "Missing required fields: contentType, topic, targetAudience"
        triggerCalled := false } := by
  refine ⟨?_, ?_, ?_, by decide⟩
  · intro p t now f hf hu
    simp only [phRequiredFields, List.mem_cons, List.not_mem_nil, or_false] at hf
    rcases hf with rfl | rfl | rfl | rfl <;>
      simp [productHuntLaunchHandler, hu, JsValue.truthy]
  · intro p t now f hf hu
    simp only [cgRequiredFields, List.mem_cons, List.not_mem_nil, or_false] at hf
    rcases hf with rfl | rfl | rfl <;>
      simp [contentGenerationHandler, hu, JsValue.truthy]
  · intro p t now f hf hu
    simp only [atRequiredFields, List.mem_cons, List.not_mem_nil, or_false] at hf
    rcases hf with rfl | rfl | rfl <;>
      simp [analyticsTrackingHandler, hu, JsValue.truthy]

/-- Witness for C1: POST /trigger/product-hunt-launch with only
productName yields the 400 outcome without a trigger call. -/
theorem dispatch_missing_required_fields_rejected_witness :
  productHuntLaunchHandler [("productName", .str "Foo")] (.ok "run_1") "t0" =
    { httpStatus := 400
      body := .validationError false
        "Missing required fields: productName, launchDate, description, website"
      triggerCalled := false } :=
  dispatch_missing_required_fields_rejected.1
    [("productName", .str "Foo")] (.ok "run_1") "t0" "launchDate"
    (by decide) (by decide)

/-- C2: every POST to a /trigger/* route whose body has all required
fields (truthy), when the task trigger returns a handle without throwing,
gets HTTP 200 with the success envelope carrying that route's task id,
the handle id as run id, status "triggered" and the response timestamp;
the response is fully determined by the payload, the trigger handle and
the clock, with no dependence on the run's own completion. -/
theorem dispatch_wellformed_triggered_200 :
  (∀ (p : Payload) (h now : String),
      (∀ f ∈ phRequiredFields, (payloadGet p f).truthy = true) →
      productHuntLaunchHandler p (.ok h) now =
        { httpStatus := 200
          body := .triggerSuccess true "product-hunt-launch" h "triggered" now
          triggerCalled := true })
  ∧ (∀ (p : Payload) (h now : String),
      (∀ f ∈ cgRequiredFields, (payloadGet p f).truthy = true) →
      contentGenerationHandler p (.ok h) now =
        { httpStatus := 200
          body := .triggerSuccess true "content-generation" h "triggered" now
          triggerCalled := true })
  ∧ (∀ (p : Payload) (h now : String),
      (∀ f ∈ atRequiredFields, (payloadGet p f).truthy = true) →
      analyticsTrackingHandler p (.ok h) now =
        { httpStatus := 200
          body := .triggerSuccess true "analytics-tracking" h "triggered" now
          triggerCalled := true }) := by
  refine ⟨?_, ?_, ?_⟩
  · intro p h now hall
    have h1 := hall "productName" (by simp [phRequiredFields])
    have h2 := hall "launchDate" (by simp [phRequiredFields])
    have h3 := hall "description" (by simp [phRequiredFields])
    have h4 := hall "website" (by simp [phRequiredFields])
    simp [productHuntLaunchHandler, h1, h2, h3, h4]
  · intro p h now hall
    have h1 := hall "contentType" (by simp [cgRequiredFields])
    have h2 := hall "topic" (by simp [cgRequiredFields])
    have h3 := hall "targetAudience" (by simp [cgRequiredFields])
    simp [contentGenerationHandler, h1, h2, h3]
  · intro p h now hall
    have h1 := hall "eventType" (by simp [atRequiredFields])
    have h2 := hall "userId" (by simp [atRequiredFields])
    have h3 := hall "properties" (by simp [atRequiredFields])
    simp [analyticsTrackingHandler, h1, h2, h3]

/-- Witness for C2: a complete product-hunt-launch payload with a
returned handle yields the 200 triggered envelope. -/
theorem dispatch_wellformed_triggered_200_witness :
  productHuntLaunchHandler
    [("productName", .str "Foo"), ("launchDate", .str "2099-01-01T00:00:00Z"),
     ("description", .str "d"), ("website", .str "http://x")]
    (.ok "run_42") "2025-01-01T00:00:00Z" =
    { httpStatus := 200
      body := .triggerSuccess true "product-hunt-launch" "run_42" "triggered"
        "2025-01-01T00:00:00Z"
      triggerCalled := true } :=
  dispatch_wellformed_triggered_200.1
    [("productName", .str "Foo"), ("launchDate", .str "2099-01-01T00:00:00Z"),
     ("description", .str "d"), ("website", .str "http://x")]
    "run_42" "2025-01-01T00:00:00Z" (by decide)

/-- C9: every POST to a /trigger/* route whose body contains all the
route's required field names but gives at least one of them a falsy value
(empty string, 0, false or null) gets the 400 missing-fields outcome and
the task trigger is never called: the validation is a truthiness check,
not a field-presence check. -/
theorem dispatch_validation_is_truthiness :
  (∀ (p : Payload) (t : Except String String) (now : String),
      (∀ f ∈ phRequiredFields, payloadGet p f ≠ .undefined) →
      (∃ f ∈ phRequiredFields, (payloadGet p f).truthy = false) →
      productHuntLaunchHandler p t now =
        { httpStatus := 400
          body := .validationError false
            "Missing required fields: productName, launchDate, description, website"
          triggerCalled := false })
  ∧ (∀ (p : Payload) (t : Except String String) (now : String),
      (∀ f ∈ cgRequiredFields, payloadGet p f ≠ .undefined) →
      (∃ f ∈ cgRequiredFields, (payloadGet p f).truthy = false) →
      contentGenerationHandler p t now =
        { httpStatus := 400
          body := .validationError false
            "Missing required fields: contentType, topic, targetAudience"
          triggerCalled := false })
  ∧ (∀ (p : Payload) (t : Except String String) (now : String),
      (∀ f ∈ atRequiredFields, payloadGet p f ≠ .undefined) →
      (∃ f ∈ atRequiredFields, (payloadGet p f).truthy = false) →
      analyticsTrackingHandler p t now =
        { httpStatus := 400
          body := .validationError false
            "Missing required fields: eventType, userId, properties"
          triggerCalled := false }) := by
  refine ⟨?_, ?_, ?_⟩
  · intro p t now _hpresent hfal
    rcases hfal with ⟨f, hf, hfal⟩
    simp only [phRequiredFields, List.mem_cons, List.not_mem_nil, or_false] at hf
    rcases hf with rfl | rfl | rfl | rfl <;>
      simp [productHuntLaunchHandler, hfal]
  · intro p t now _hpresent hfal
    rcases hfal with ⟨f, hf, hfal⟩
    simp only [cgRequiredFields, List.mem_cons, List.not_mem_nil, or_false] at hf
    rcases hf with rfl | rfl | rfl <;>
      simp [contentGenerationHandler, hfal]
  · intro p t now _hpresent hfal
    rcases hfal with ⟨f, hf, hfal⟩
    simp only [atRequiredFields, List.mem_cons, List.not_mem_nil, or_false] at hf
    rcases hf with rfl | rfl | rfl <;>
      simp [analyticsTrackingHandler, hfal]

/-- Witness for C9: an analytics payload with all three field names
present but userId the empty string is rejected with 400 and no trigger
call. -/
theorem dispatch_validation_is_truthiness_witness :
  analyticsTrackingHandler
    [("eventType", .str "signup"), ("userId", .str ""), ("properties", .obj)]
    (.ok "run_7") "t0" =
    { httpStatus := 400
      body := .validationError false
        "Missing required fields: eventType, userId, properties"
      triggerCalled := false } :=
  dispatch_validation_is_truthiness.2.2
    [("eventType", .str "signup"), ("userId", .str ""), ("properties", .obj)]
    (.ok "run_7") "t0" (by decide) (by decide)

/-- C7: for every runId, the GET /runs/:runId stub answers HTTP 200 with
the requested id, the constant status "running" and the request-time
timestamp, independently of the actual substrate state of any run. -/
theorem run_status_lookup_is_stub :
  ∀ (runId now s1 s2 : String),
    getRunStatusHandler runId now s1 = getRunStatusHandler runId now s2
    ∧ (getRunStatusHandler runId now s1).1 = 200
    ∧ (getRunStatusHandler runId now s1).2 =
        { id := runId, status := "running", createdAt := now } := by
  intro runId now s1 s2
  exact ⟨rfl, rfl, rfl⟩

/-- C4: the declared retry configurations of the three task definitions
equal, value for value, the configurations the spec table states. -/
theorem retry_configs_match_spec :
  productHuntLaunchRetry = specProductHuntLaunchRetry
  ∧ contentGenerationRetry = specContentGenerationRetry
  ∧ analyticsTrackingRetry = specAnalyticsTrackingRetry :=
  ⟨rfl, rfl, rfl⟩

/-- C5: for every attempt n with 1 ≤ n ≤ maxAttempts (= 3 for all three
tasks), the substrate backoff delay over each task's declared
configuration equals min(minTimeoutMs * factor^(n-1), maxTimeoutMs),
never exceeds maxTimeoutMs, and for product-hunt-launch the concrete
delays are 1000 ms after attempt 1 and 2000 ms after attempt 2. -/
theorem retry_backoff_formula (n : Nat) (hn1 : 1 ≤ n) (hn3 : n ≤ 3) :
  backoffDelayMs productHuntLaunchRetry n = min (1000 * 2 ^ (n - 1)) 10000
  ∧ backoffDelayMs contentGenerationRetry n = min (2000 * 2 ^ (n - 1)) 15000
  ∧ backoffDelayMs analyticsTrackingRetry n = min (1000 * 2 ^ (n - 1)) 10000
  ∧ backoffDelayMs productHuntLaunchRetry n ≤ productHuntLaunchRetry.maxTimeoutInMs
  ∧ backoffDelayMs contentGenerationRetry n ≤ contentGenerationRetry.maxTimeoutInMs
  ∧ backoffDelayMs analyticsTrackingRetry n ≤ analyticsTrackingRetry.maxTimeoutInMs
  ∧ backoffDelayMs productHuntLaunchRetry 1 = 1000
  ∧ backoffDelayMs productHuntLaunchRetry 2 = 2000 := by
  have _ := hn1
  have _ := hn3
  refine ⟨rfl, rfl, rfl, ?_, ?_, ?_, by decide, by decide⟩
  · exact Nat.min_le_right _ _
  · exact Nat.min_le_right _ _
  · exact Nat.min_le_right _ _

/-- Witness for C5 at attempt n = 3. -/
theorem retry_backoff_formula_witness :
  backoffDelayMs productHuntLaunchRetry 3 = min (1000 * 2 ^ (3 - 1)) 10000
  ∧ backoffDelayMs contentGenerationRetry 3 = min (2000 * 2 ^ (3 - 1)) 15000
  ∧ backoffDelayMs analyticsTrackingRetry 3 = min (1000 * 2 ^ (3 - 1)) 10000
  ∧ backoffDelayMs productHuntLaunchRetry 3 ≤ productHuntLaunchRetry.maxTimeoutInMs
  ∧ backoffDelayMs contentGenerationRetry 3 ≤ contentGenerationRetry.maxTimeoutInMs
  ∧ backoffDelayMs analyticsTrackingRetry 3 ≤ analyticsTrackingRetry.maxTimeoutInMs
  ∧ backoffDelayMs productHuntLaunchRetry 1 = 1000
  ∧ backoffDelayMs productHuntLaunchRetry 2 = 2000 :=
  retry_backoff_formula 3 (by decide) (by decide)

/-- C6: in every execution of the product-hunt-launch run function, the
suspend point on the payload launch date is the first event of the run
trace, so every Slack webhook POST of the run occurs strictly after it. -/
theorem launch_wait_precedes_slack_notification
    (parseDateMs : String → Nat) (nowMs : Nat) (p : ProductHuntLaunchPayload)
    (i : Nat) (url text : String)
    (hi : (productHuntLaunchRunTrace parseDateMs nowMs p).get? i
            = some (.slackWebhookPost url text)) :
    (productHuntLaunchRunTrace parseDateMs nowMs p).get? 0
      = some (.waitUntilMs (parseDateMs p.launchDate)) ∧ 0 < i := by
  constructor
  · rfl
  · rcases Nat.eq_zero_or_pos i with rfl | hpos
    · rw [show (productHuntLaunchRunTrace parseDateMs nowMs p).get? 0
            = some (.waitUntilMs (parseDateMs p.launchDate)) from rfl] at hi
      simp at hi
    · exact hpos

/-- Witness for C6: a payload with a Slack webhook whose trace has the
webhook POST at index 1, strictly after the launch-date suspend point at
index 0. -/
theorem launch_wait_precedes_slack_notification_witness :
  (productHuntLaunchRunTrace (fun _ => 4070908800000) 0
      { productName := "Foo", launchDate := "2099-01-01T00:00:00Z",
        description := "d", website := "http://x",
        twitterHandle := none,
        slackWebhook := some "https://hooks.slack.test/T1" }).get? 0
    = some (.waitUntilMs ((fun (_ : String) => 4070908800000) "2099-01-01T00:00:00Z"))
  ∧ 0 < 1 :=
  launch_wait_precedes_slack_notification (fun _ => 4070908800000) 0
    { productName := "Foo", launchDate := "2099-01-01T00:00:00Z",
      description := "d", website := "http://x",
      twitterHandle := none,
      slackWebhook := some "https://hooks.slack.test/T1" }
    1 "https://hooks.slack.test/T1" "🚀 Foo is now live on Product Hunt!" rfl

/-- A content-generation payload with only the Slack integration
configured, used to exhibit the swallowed sink failure. -/
def cgSlackOnlyPayload : ContentGenerationPayload :=
  { contentType := "blog-post", topic := "AI agents", targetAudience := "founders",
    tone := "professional", platforms := none, scheduledDate := none,
    integrations :=
      { notion := none,
        slack := some { webhook := "https://hooks.slack.test/T2", channel := "launches" } } }

/-- Counterexample to C3: inside the content-generation run, the Slack
webhook POST of publishContent receiving a non-2xx response does NOT
propagate as a run failure: the failure is recorded in the publish
results and the run still returns a success object. -/
theorem sink_failure_swallowed_counterexample :
  (publishContent cgSlackOnlyPayload 0
      (.ok { ok := false, statusText := "not_found" })).slack
    = some (.failed "Slack API error: not_found")
  ∧ exceptIsOk (contentGenerationRun cgSlackOnlyPayload 0 "2025-01-01T00:00:00Z"
      (.ok { ok := false, statusText := "not_found" })) = true
  ∧ (contentGenerationRun cgSlackOnlyPayload 0 "2025-01-01T00:00:00Z"
      (.ok { ok := false, statusText := "not_found" })).toOption.map
        ContentRunResult.success = some true :=
  ⟨rfl, rfl, rfl⟩

/-- C3 as amended: sink failures propagate out of the run function for
the product-hunt-launch Slack notification (fetch error or non-2xx is
rethrown) and for the slack-integration SDK tasks (the catch rethrows),
but NOT for content-generation publishContent, which catches both sink
failures, records them in the publish results, and lets the run complete
successfully. -/
theorem sink_failure_propagation_amended :
  (∀ (p : ProductHuntLaunchPayload) (r : FetchResponse), r.ok = false →
      sendSlackNotification p (.ok r)
        = .error ("Slack notification failed: " ++ r.statusText))
  ∧ (∀ (p : ProductHuntLaunchPayload) (e : String),
      sendSlackNotification p (.error e) = .error e)
  ∧ (∀ (env : Env) (ch msg : String) (an : Option String) (e : String),
      sendSlackMessageRun env ch msg an (.error e) = .error e)
  ∧ (∀ (p : ContentGenerationPayload) (nowMs : Nat) (doneAt : String)
        (cfg : SlackIntegration) (r : FetchResponse),
      p.integrations.slack = some cfg → r.ok = false →
      (publishContent p nowMs (.ok r)).slack
        = some (.failed ("Slack API error: " ++ r.statusText))
      ∧ exceptIsOk (contentGenerationRun p nowMs doneAt (.ok r)) = true) := by
  refine ⟨?_, ?_, ?_, ?_⟩
  · intro p r hr
    simp [sendSlackNotification, hr]
  · intro p e
    rfl
  · intro env ch msg an e
    rfl
  · intro p nowMs doneAt cfg r hcfg hr
    constructor
    · simp [publishContent, hcfg, hr]
    · rfl

/-- Witness for the amended C3: a non-2xx Slack response makes the
product-hunt notification step fail, while the same kind of response in
content-generation publishing is recorded and the run still succeeds. -/
theorem sink_failure_propagation_amended_witness :
  sendSlackNotification
      { productName := "Foo", launchDate := "2099-01-01T00:00:00Z",
        description := "d", website := "http://x", twitterHandle := none,
        slackWebhook := some "https://hooks.slack.test/T1" }
      (.ok { ok := false, statusText := "server_error" })
    = .error ("Slack notification failed: " ++ "server_error")
  ∧ ((publishContent cgSlackOnlyPayload 0
        (.ok { ok := false, statusText := "not_found" })).slack
      = some (.failed ("Slack API error: " ++ "not_found"))
    ∧ exceptIsOk (contentGenerationRun cgSlackOnlyPayload 0 "t"
        (.ok { ok := false, statusText := "not_found" })) = true) :=
  ⟨sink_failure_propagation_amended.1
      { productName := "Foo", launchDate := "2099-01-01T00:00:00Z",
        description := "d", website := "http://x", twitterHandle := none,
        slackWebhook := some "https://hooks.slack.test/T1" }
      { ok := false, statusText := "server_error" } rfl,
   sink_failure_propagation_amended.2.2.2 cgSlackOnlyPayload 0 "t"
      { webhook := "https://hooks.slack.test/T2", channel := "launches" }
      { ok := false, statusText := "not_found" } rfl rfl⟩

/-- C8: the /api/trigger/* Slack handlers write the request body token
into the process-wide SLACK_BOT_TOKEN variable, the Slack tasks read
their WebClient credential from that same variable, and under two
interleaved requests with distinct tokens a task triggered by the first
request whose run starts after the second handler ran uses the second
request's token, not its own. -/
theorem slack_token_global_state :
  (∀ (req : SlackMessageRequest) (env : Env),
      ((sendSlackMessageEndpointStep req env).1).slackBotToken
        = some req.slack_bot_token)
  ∧ (∀ (req : DemoSlackRequest) (env : Env),
      ((demoSlackEndpointStep req env).1).slackBotToken
        = some req.slack_bot_token)
  ∧ (∀ (env : Env), slackClientToken env = env.slackBotToken)
  ∧ (∀ (reqA reqB : SlackMessageRequest) (env0 : Env),
      reqA.slack_bot_token ≠ reqB.slack_bot_token →
      slackClientToken ((sendSlackMessageEndpointStep reqB
          ((sendSlackMessageEndpointStep reqA env0).1)).1)
        = some reqB.slack_bot_token
      ∧ slackClientToken ((sendSlackMessageEndpointStep reqB
          ((sendSlackMessageEndpointStep reqA env0).1)).1)
        ≠ some reqA.slack_bot_token) := by
  refine ⟨fun req env => rfl, fun req env => rfl, fun env => rfl, ?_⟩
  intro reqA reqB env0 hne
  refine ⟨rfl, fun h => hne ?_⟩
  exact (Option.some.inj h).symm

/-- Witness for C8: two concrete requests with distinct tokens; after the
second handler runs, the task WebClient reads the second token, not the
first. -/
theorem slack_token_global_state_witness :
  slackClientToken ((sendSlackMessageEndpointStep
      { slack_bot_token := "xoxb-token-B", channel := none,
        message := none, user_name := none }
      ((sendSlackMessageEndpointStep
          { slack_bot_token := "xoxb-token-A", channel := none,
            message := none, user_name := none }
          { slackBotToken := none }).1)).1)
    = some "xoxb-token-B"
  ∧ slackClientToken ((sendSlackMessageEndpointStep
      { slack_bot_token := "xoxb-token-B", channel := none,
        message := none, user_name := none }
      ((sendSlackMessageEndpointStep
          { slack_bot_token := "xoxb-token-A", channel := none,
            message := none, user_name := none }
          { slackBotToken := none }).1)).1)
    ≠ some "xoxb-token-A" :=
  slack_token_global_state.2.2.2
    { slack_bot_token := "xoxb-token-A", channel := none,
      message := none, user_name := none }
    { slack_bot_token := "xoxb-token-B", channel := none,
      message := none, user_name := none }
    { slackBotToken := none } (by decide)

/-- C10: a content-generation payload whose contentType is a non-empty
string outside the four known template keys is accepted by the bridge
(HTTP 200, task triggered), the template lookup yields no content without
raising, and the run completes successfully with generatedContent absent. -/
theorem unknown_content_type_accepted_without_content
    (ct topic audience : String) (hct1 : ct ≠ "")
    (hct2 : ct ∉ ["blog-post", "social-media", "email-campaign", "product-description"])
    (htopic : topic ≠ "") (haud : audience ≠ "")
    (handleId now : String)
    (p : ContentGenerationPayload) (hp : p.contentType = ct)
    (nowMs : Nat) (doneAt : String) (fr : Except String FetchResponse) :
    contentGenerationHandler
        [("contentType", .str ct), ("topic", .str topic),
         ("targetAudience", .str audience)]
        (.ok handleId) now =
      { httpStatus := 200
        body := .triggerSuccess true "content-generation" handleId "triggered" now
        triggerCalled := true }
    ∧ generateContent p = none
    ∧ contentGenerationRun p nowMs doneAt fr =
        .ok { success := true, contentType := p.contentType, topic := p.topic,
              generatedContent := none,
              publishResults := publishContent p nowMs fr,
              completedAt := doneAt } := by
  simp only [List.mem_cons, List.not_mem_nil, or_false, not_or] at hct2
  obtain ⟨h1, h2, h3, h4⟩ := hct2
  have hgen : generateContent p = none := by
    simp [generateContent, hp, beq_iff_eq, h1, h2, h3, h4]
  refine ⟨?_, hgen, ?_⟩
  · simp [contentGenerationHandler, payloadGet, JsValue.truthy, hct1, htopic, haud]
  · simp [contentGenerationRun, hgen]

/-- Witness for C10: contentType "video-script" is accepted by the bridge
and produces a successful run with no generated content. -/
theorem unknown_content_type_accepted_without_content_witness :
  contentGenerationHandler
      [("contentType", .str "video-script"), ("topic", .str "Onboarding"),
       ("targetAudience", .str "PMs")]
      (.ok "run_9") "t0" =
    { httpStatus := 200
      body := .triggerSuccess true "content-generation" "run_9" "triggered" "t0"
      triggerCalled := true }
  ∧ generateContent
      { contentType := "video-script", topic := "Onboarding",
        targetAudience := "PMs", tone := "casual", platforms := none,
        scheduledDate := none,
        integrations := { notion := none, slack := none } } = none
  ∧ contentGenerationRun
      { contentType := "video-script", topic := "Onboarding",
        targetAudience := "PMs", tone := "casual", platforms := none,
        scheduledDate := none,
        integrations := { notion := none, slack := none } }
      0 "t1" (.ok { ok := true, statusText := "OK" }) =
      .ok { success := true, contentType := "video-script", topic := "Onboarding",
            generatedContent := none,
            publishResults := publishContent
              { contentType := "video-script", topic := "Onboarding",
                targetAudience := "PMs", tone := "casual", platforms := none,
                scheduledDate := none,
                integrations := { notion := none, slack := none } }
              0 (.ok { ok := true, statusText := "OK" }),
            completedAt := "t1" } :=
  unknown_content_type_accepted_without_content
    "video-script" "Onboarding" "PMs" (by decide) (by decide) (by decide) (by decide)
    "run_9" "t0"
    { contentType := "video-script", topic := "Onboarding",
      targetAudience := "PMs", tone := "casual", platforms := none,
      scheduledDate := none,
      integrations := { notion := none, slack := none } }
    rfl 0 "t1" (.ok { ok := true, statusText := "OK" })

end AgentOS
